import Mathlib

/-!
Verification of the sensor-rendering synchronization engine of
`src/src/systems/sensors/Sensors.cc` (class `Sensors` / `SensorsPrivate`).

The development has two layers:

* pure models of the per-step logic: the per-sensor selection loop of
  `Sensors::PostUpdate` (lines 246-272), the mask-writing and `RunOnce`
  portion of `Sensors::RunLoop` (lines 162-183), and
  `Sensors::CreateSensor` (lines 296-324);

* a small-step operational model of the two-thread protocol
  (`Sensors::PostUpdate` as producer, `Sensors::RunLoop` as consumer,
  `Sensors::Stop`), faithful at the granularity of the `renderMutex`
  critical sections: every region of the C++ code executed while holding
  `renderMutex` (or `sensorMaskMutex`) becomes one atomic transition, and
  condition-variable waits are modelled with explicit sleeping program
  counters so that notifications sent while a thread is not yet waiting
  are lost, exactly as for `std::condition_variable`.

Simulation time (`ignition::common::Time`) is modelled by exact rationals.
-/

namespace SensorsSys

/-- Model of one instantiated sensor handle held by the
`sensors::Manager` collaborator.  `renderingCapable` models whether the
`dynamic_cast<sensors::RenderingSensor *>` on the handle succeeds.

Modelled from the spec: the "next due" time returned by
`RenderingSensor::NextUpdateTime()` is tracked by the sensor
implementation (the ign-sensors library, outside this repository); per
the spec a sensor with update rate 0 or undefined is "never due", which
we represent by `nextUpdate = none`. -/
structure SensorImpl where
  rate : ℚ
  renderingCapable : Bool
  nextUpdate : Option ℚ
  sname : String := ""
  deriving DecidableEq, Repr

/-- Well-formedness of a sensor handle.  Modelled from the spec: a sensor
whose declared update rate is 0 has no pending due time (never due). -/
def SensorImpl.wf (impl : SensorImpl) : Prop :=
  impl.rate = 0 → impl.nextUpdate = none

/-- The result of `rs->NextUpdateTime() <= t`, guarded as in the code by
`rs &&` (the handle must exist and be a rendering sensor). -/
def dueAt (h : Option SensorImpl) (t : ℚ) : Bool :=
  match h with
  | none => false
  | some impl =>
    if impl.renderingCapable then
      match impl.nextUpdate with
      | none => false
      | some u => decide (u ≤ t)
    else false

/-- The `dynamic_cast<sensors::RenderingSensor *>` of the handle returned
by `sensorManager.Sensor(id)`: `none` when the lookup fails or the sensor
is not rendering-capable. -/
def renderingHandle (sensors : Nat → Option SensorImpl) (id : Nat) :
    Option SensorImpl :=
  match sensors id with
  | none => none
  | some impl => if impl.renderingCapable then some impl else none

/-- One iteration of the selection loop of `Sensors::PostUpdate`
(lines 247-271) for sensor `id`: consult the mask; a still-future entry
skips the sensor (`continue`), an expired entry is erased and the sensor
re-evaluated; a sensor with no remaining entry is appended to
`activeSensors` exactly when its handle is a rendering sensor whose next
update time has been reached. -/
def processId (sensors : Nat → Option SensorImpl) (t : ℚ)
    (st : (Nat → Option ℚ) × List Nat) (id : Nat) :
    (Nat → Option ℚ) × List Nat :=
  let mask := st.1
  let act := st.2
  let rs := renderingHandle sensors id
  match mask id with
  | some u =>
    if u ≤ t then
      (fun j => if j = id then none else mask j,
       if dueAt rs t then act ++ [id] else act)
    else
      (mask, act)
  | none =>
    (mask, if dueAt rs t then act ++ [id] else act)

/-- The whole selection loop of `Sensors::PostUpdate` over the registry
`sensorIds` (executed under `sensorMaskMutex`): returns the updated mask
and the `activeSensors` list. -/
def select (ids : List Nat) (sensors : Nat → Option SensorImpl)
    (mask : Nat → Option ℚ) (t : ℚ) : (Nat → Option ℚ) × List Nat :=
  ids.foldl (processId sensors t) (mask, [])

/-- The mask-writing loop of `Sensors::RunLoop` (lines 162-169): for every
sensor of the pending cycle, its mask entry becomes
`updateTime + 0.9 / sensor->UpdateRate()`.  The lookup `sensors id` models
dereferencing the stored sensor pointer; ids without a handle (which the
selection never produces) are left untouched. -/
def maskWrites (sensors : Nat → Option SensorImpl) (ut : ℚ)
    (act : List Nat) (mask : Nat → Option ℚ) : Nat → Option ℚ :=
  act.foldl
    (fun m id =>
      match sensors id with
      | some impl => fun j => if j = id then some (ut + 9/10 / impl.rate) else m j
      | none => m)
    mask

/-- Modelled from the spec: `sensorManager.RunOnce(updateTime)` (the
ign-sensors Manager collaborator, outside this repository) triggers
publish for the sensors of the pending cycle; each advances its next-due
time by its period; a rate-0 sensor keeps no due time. -/
def runOnce (ut : ℚ) (act : List Nat) (sensors : Nat → Option SensorImpl) :
    Nat → Option SensorImpl :=
  fun j =>
    match sensors j with
    | none => none
    | some impl =>
      if j ∈ act then
        some { impl with
               nextUpdate := if impl.rate = 0 then none else some (ut + 1 / impl.rate) }
      else some impl

/-! ### `Sensors::CreateSensor` (lines 296-324) -/

/-- The `sdf::SensorType` of the descriptor, as far as the code inspects
it: `sdf::SensorType::NONE` versus anything recognized. -/
inductive SdfType
  | noneType
  | camera
  | depthCamera
  | gpuLidar
  | rgbdCamera
  | otherType
  deriving DecidableEq, Repr

/-- What a call to `Sensors::CreateSensor` does, observationally:
return the empty string, return the created sensor's name, or reach
undefined behaviour by calling through a null pointer. -/
inductive CreateResult
  | emptyName
  | ok (name : String)
  | nullDeref
  deriving DecidableEq, Repr

/-- Full outcome of `Sensors::CreateSensor`: the returned value (or the
null-pointer dereference), the registry `sensorIds` afterwards, and
whether the "Failed to create sensor" error was logged. -/
structure CreateOutcome where
  result : CreateResult
  sensorIds : List Nat
  loggedError : Bool
  deriving DecidableEq, Repr

/-- `Sensors::CreateSensor(_sdf, _parentName)`, lines 296-324.  The
manager collaborator's behaviour is passed in as the id it returns
(`mgrId`, with `sensors::NO_SENSOR` modelled as `0`) and the handle that
`sensorManager.Sensor(mgrId)` then yields.  Faithful to the source:
the id is inserted into `sensorIds` *before* the null/NO_SENSOR check;
that check only logs and falls through; the subsequent
`dynamic_cast<RenderingSensor *>` result is dereferenced unconditionally
(`SetScene`/`SetParent`/`SetManualSceneUpdate`), so a null or
non-rendering handle is a null-pointer dereference. -/
def createSensor (ty : SdfType) (mgrId : Nat) (handle : Option SensorImpl)
    (ids : List Nat) : CreateOutcome :=
  if ty = .noneType then
    ⟨.emptyName, ids, true⟩
  else
    let ids' := if mgrId ∈ ids then ids else ids ++ [mgrId]
    let logged := decide (handle = none ∨ mgrId = 0)
    match handle with
    | none => ⟨.nullDeref, ids', logged⟩
    | some impl =>
      if impl.renderingCapable then ⟨.ok impl.sname, ids', logged⟩
      else ⟨.nullDeref, ids', logged⟩

/-! ### The two-thread protocol

Program counters for the render thread (`Sensors::RunLoop`) and the
producer thread (`Sensors::PostUpdate` / `Sensors::Stop`).  The
`...Sleeping` counters are threads blocked in `renderCv.wait`; they move
only when another thread's transition notifies the condition variable. -/

/-- Program counter of the render thread through `Sensors::RunLoop`. -/
inductive RenderPC
  /-- About to evaluate the first loop's condition
  `!initialized && running` (line 114, read without the mutex). -/
  | rstart
  /-- Condition passed; about to lock `renderMutex` and call
  `renderCv.wait(lock)` (lines 117-118). -/
  | rinitLock
  /-- Blocked inside the un-predicated `renderCv.wait(lock)` of the first
  loop; leaves only when notified. -/
  | rinitSleeping
  /-- Notified; reacquires the mutex and runs lines 120-130 (optional
  init, reset `updateAvailable`, notify). -/
  | rinitWake
  /-- About to evaluate the second loop's condition `running` (line 135). -/
  | rloopStart
  /-- About to run the predicated wait of lines 138-141; proceeds when
  `!running || updateAvailable`, otherwise goes to sleep. -/
  | rtakeWait
  /-- Blocked in the predicated wait; leaves only when notified. -/
  | rtakeSleeping
  /-- `RunLoop` returned (line 190): the thread is joinable at once. -/
  | rdone
  deriving DecidableEq, Repr

/-- Program counter of the simulation thread through `Sensors::PostUpdate`
and `Sensors::Stop`. -/
inductive ProdPC
  /-- Between calls: `PostUpdate` may begin (with fresh `_info.simTime`
  and component snapshot) or `Stop` may begin. -/
  | pidle
  /-- About to evaluate the condition of lines 221-225
  (`!initialized` and a rendering-capable component type exists). -/
  | ppostStart
  /-- About to run lines 228-233: lock, predicated wait on
  `!running || !updateAvailable`, then set `doInit` and notify. -/
  | pinitWait
  /-- Blocked in that predicated wait. -/
  | pinitSleeping
  /-- About to evaluate `running && initialized` (line 237). -/
  | pmain
  /-- About to run the selection loop (lines 244-272, under
  `sensorMaskMutex`), including `renderUtil.UpdateFromECM`. -/
  | pselect
  /-- About to evaluate `activeSensors.size() || PendingSensors() > 0`
  (line 274). -/
  | psubmitGate
  /-- About to run lines 278-290: lock, predicated wait on
  `!running || !updateAvailable`, then install the cycle. -/
  | psubmitWait
  /-- Blocked in that predicated wait. -/
  | psubmitSleeping
  /-- Inside `Sensors::Stop`, after `running = false` and `notify_all`,
  blocked in `renderThread.join()` until the render thread is done. -/
  | pstopJoin
  /-- `Stop` returned. -/
  | pstopped
  deriving DecidableEq, Repr

/-- Global state of the protocol: the fields of `SensorsPrivate`, the two
program counters, the producer's locals, and ghost instrumentation
(counters of events, the log of installed cycles).  `renderMutex` is left
implicit: every critical section is one atomic transition, so the mutex
is free between any two transitions. -/
structure SysState where
  initialized : Bool
  running : Bool
  doInit : Bool
  updateAvailable : Bool
  updateTime : ℚ
  activeSensors : List Nat
  sensorMask : Nat → Option ℚ
  sensorIds : List Nat
  sensors : Nat → Option SensorImpl
  pendingSensors : Nat
  rpc : RenderPC
  ppc : ProdPC
  /-- Producer local: the step time `t` of the current `PostUpdate`. -/
  pT : ℚ
  /-- Producer local: whether the ECM snapshot of the current `PostUpdate`
  has any rendering-capable sensor component. -/
  pComp : Bool
  /-- Producer local: the `activeSensors` list built by the selection. -/
  pAct : List Nat
  /-- Ghost: how many times `renderUtil.Init()` ran. -/
  initCount : Nat
  /-- Ghost: how many cycles the producer installed (line 289 executed). -/
  submitCount : Nat
  /-- Ghost: how many cycles the render thread consumed
  (line 185 executed). -/
  consumeCount : Nat
  /-- Ghost: how many `PostUpdate` calls began. -/
  postUpdateCount : Nat
  /-- Ghost: whether any `PostUpdate` ever observed a rendering-capable
  sensor component. -/
  everRenderComp : Bool
  /-- Ghost: the installed cycles, most recent first, as
  (timestamp, selected sensor ids). -/
  submitted : List (ℚ × List Nat)

/-- `renderCv.notify_*` as seen by the render thread: a sleeping thread
returns to the point where it reacquires the mutex (and, for the
predicated wait, re-checks its predicate). -/
def wakeR : RenderPC → RenderPC
  | .rinitSleeping => .rinitWake
  | .rtakeSleeping => .rtakeWait
  | pc => pc

/-- `renderCv.notify_*` as seen by the producer thread. -/
def wakeP : ProdPC → ProdPC
  | .pinitSleeping => .pinitWait
  | .psubmitSleeping => .psubmitWait
  | pc => pc

/-- The state right after `Sensors::Configure` (lines 194-213): flags
cleared, `running = true`, the render thread spawned at the top of
`RunLoop`, no sensors yet. -/
def initState : SysState where
  initialized := false
  running := true
  doInit := false
  updateAvailable := false
  updateTime := 0
  activeSensors := []
  sensorMask := fun _ => none
  sensorIds := []
  sensors := fun _ => none
  pendingSensors := 0
  rpc := .rstart
  ppc := .pidle
  pT := 0
  pComp := false
  pAct := []
  initCount := 0
  submitCount := 0
  consumeCount := 0
  postUpdateCount := 0
  everRenderComp := false
  submitted := []

/-! Effects of the individual transitions. -/

/-- A new `PostUpdate` call begins with step time `t` and snapshot flag
`c` (whether any of the `Camera`/`DepthCamera`/`GpuLidar`/`RgbdCamera`
component types exists). -/
def beginPUEff (t : ℚ) (c : Bool) (s : SysState) : SysState :=
  { s with ppc := .ppostStart, pT := t, pComp := c,
           everRenderComp := s.everRenderComp || c,
           postUpdateCount := s.postUpdateCount + 1 }

/-- Lines 228-233 when the wait predicate `!running || !updateAvailable`
holds: set `doInit`, notify the render thread, fall through to line 237.
The request returns at once, whether or not initialization has run. -/
def initReqEff (s : SysState) : SysState :=
  { s with doInit := true, rpc := wakeR s.rpc, ppc := .pmain }

/-- The selection phase (lines 239-272): `UpdateFromECM` queues `np` new
sensors on the render-util (`PendingSensors` grows by `np`), then the
mask/selection loop runs under `sensorMaskMutex`. -/
def selectEff (np : Nat) (s : SysState) : SysState :=
  let r := select s.sensorIds s.sensors s.sensorMask s.pT
  { s with sensorMask := r.1, pAct := r.2,
           pendingSensors := s.pendingSensors + np,
           ppc := .psubmitGate }

/-- Lines 287-290 (reached with the mutex held, predicate true, still
running): install the Pending Cycle and notify. -/
def installEff (s : SysState) : SysState :=
  { s with activeSensors := s.pAct, updateTime := s.pT,
           updateAvailable := true,
           submitCount := s.submitCount + 1,
           submitted := (s.pT, s.pAct) :: s.submitted,
           rpc := wakeR s.rpc, ppc := .pidle }

/-- `Sensors::Stop` (lines 96-108) up to the `join`: under the mutex set
`running = false`, then `notify_all`, then block in `join`. -/
def stopEff (s : SysState) : SysState :=
  { s with running := false, rpc := wakeR s.rpc, ppc := .pstopJoin }

/-- Lines 120-130, run with the mutex reacquired after the first-loop
wait: if `doInit`, create the render context (`renderUtil.Init()`, ghost
`initCount`) and set `initialized`; always reset `updateAvailable` and
notify. -/
def rInitWakeEff (s : SysState) : SysState :=
  { s with initialized := s.initialized || s.doInit,
           initCount := s.initCount + (if s.doInit then 1 else 0),
           updateAvailable := false,
           ppc := wakeP s.ppc, rpc := .rstart }

/-- Lines 148-188 (reached with the mutex held, `running` and
`updateAvailable` true): `renderUtil.Update()` creates the queued sensors
`cr` and clears the pending count; if the cycle is non-empty, write the
mask entries, pre-render, `RunOnce`, and clear the list; reset
`updateAvailable`, notify.  (With an empty cycle the mask/`RunOnce` folds
are identities, matching the `if` at line 155.) -/
def consumeEff (cr : List (Nat × SensorImpl)) (s : SysState) : SysState :=
  let sensors' := cr.foldl (fun g p => fun j => if j = p.1 then some p.2 else g j) s.sensors
  { s with
    sensors := runOnce s.updateTime s.activeSensors sensors',
    sensorIds := cr.foldl (fun l p => if p.1 ∈ l then l else l ++ [p.1]) s.sensorIds,
    sensorMask := maskWrites sensors' s.updateTime s.activeSensors s.sensorMask,
    activeSensors := [],
    pendingSensors := 0,
    updateAvailable := false,
    consumeCount := s.consumeCount + 1,
    ppc := wakeP s.ppc, rpc := .rloopStart }

/-- The interleaved small-step semantics of the two threads.  Each
transition is one `renderMutex`-granular atomic action of
`Sensors::PostUpdate`, `Sensors::Stop` or `Sensors::RunLoop`. -/
inductive Step : SysState → SysState → Prop
  /-- The simulation calls `PostUpdate(t, snapshot)`. -/
  | beginPU (s : SysState) (t : ℚ) (c : Bool) (h : s.ppc = .pidle) :
      Step s (beginPUEff t c s)
  /-- Line 221: not initialized and a rendering component exists. -/
  | postStartInit (s : SysState) (h : s.ppc = .ppostStart)
      (h1 : s.initialized = false) (h2 : s.pComp = true) :
      Step s { s with ppc := .pinitWait }
  /-- Line 221: the condition fails; skip to line 237. -/
  | postStartSkip (s : SysState) (h : s.ppc = .ppostStart)
      (h1 : s.initialized = true ∨ s.pComp = false) :
      Step s { s with ppc := .pmain }
  /-- Lines 228-233 with the wait predicate true. -/
  | initReq (s : SysState) (h : s.ppc = .pinitWait)
      (h1 : s.running = false ∨ s.updateAvailable = false) :
      Step s (initReqEff s)
  /-- Lines 229-230: predicate false, the producer goes to sleep. -/
  | initSleep (s : SysState) (h : s.ppc = .pinitWait)
      (h1 : s.running = true) (h2 : s.updateAvailable = true) :
      Step s { s with ppc := .pinitSleeping }
  /-- Line 237 with `running && initialized`. -/
  | mainGo (s : SysState) (h : s.ppc = .pmain)
      (h1 : s.running = true) (h2 : s.initialized = true) :
      Step s { s with ppc := .pselect }
  /-- Line 237 fails: `PostUpdate` returns. -/
  | mainSkip (s : SysState) (h : s.ppc = .pmain)
      (h1 : s.running = false ∨ s.initialized = false) :
      Step s { s with ppc := .pidle }
  /-- Lines 239-272: `UpdateFromECM` plus the selection loop. -/
  | selectStep (s : SysState) (np : Nat) (h : s.ppc = .pselect) :
      Step s (selectEff np s)
  /-- Line 274: work to hand off. -/
  | gateGo (s : SysState) (h : s.ppc = .psubmitGate)
      (h1 : s.pAct ≠ [] ∨ 0 < s.pendingSensors) :
      Step s { s with ppc := .psubmitWait }
  /-- Line 274: nothing to do, `PostUpdate` returns. -/
  | gateSkip (s : SysState) (h : s.ppc = .psubmitGate)
      (h1 : s.pAct = []) (h2 : s.pendingSensors = 0) :
      Step s { s with ppc := .pidle }
  /-- Lines 278-290: predicate true and still running — install. -/
  | install (s : SysState) (h : s.ppc = .psubmitWait)
      (h1 : s.running = true) (h2 : s.updateAvailable = false) :
      Step s (installEff s)
  /-- Lines 279-280: predicate false, the producer goes to sleep. -/
  | submitSleep (s : SysState) (h : s.ppc = .psubmitWait)
      (h1 : s.running = true) (h2 : s.updateAvailable = true) :
      Step s { s with ppc := .psubmitSleeping }
  /-- Lines 282-285: woken with `!running`, `PostUpdate` returns. -/
  | submitAbort (s : SysState) (h : s.ppc = .psubmitWait)
      (h1 : s.running = false) :
      Step s { s with ppc := .pidle }
  /-- `Sensors::Stop` begins (lines 96-102). -/
  | stop (s : SysState) (h : s.ppc = .pidle) :
      Step s (stopEff s)
  /-- Line 106: the `join` returns once `RunLoop` has exited. -/
  | join (s : SysState) (h : s.ppc = .pstopJoin) (h1 : s.rpc = .rdone) :
      Step s { s with ppc := .pstopped }
  /-- Line 114 evaluates true: enter the init-wait body. -/
  | rStartInit (s : SysState) (h : s.rpc = .rstart)
      (h1 : s.initialized = false) (h2 : s.running = true) :
      Step s { s with rpc := .rinitLock }
  /-- Line 114 evaluates false: on to the second loop. -/
  | rStartSkip (s : SysState) (h : s.rpc = .rstart)
      (h1 : s.initialized = true ∨ s.running = false) :
      Step s { s with rpc := .rloopStart }
  /-- Lines 117-118: lock and block in the un-predicated wait.  A
  notification sent before this point is lost. -/
  | rInitSleep (s : SysState) (h : s.rpc = .rinitLock) :
      Step s { s with rpc := .rinitSleeping }
  /-- Lines 120-130 after being notified. -/
  | rInitWake (s : SysState) (h : s.rpc = .rinitWake) :
      Step s (rInitWakeEff s)
  /-- Line 135 with `running`. -/
  | rLoopGo (s : SysState) (h : s.rpc = .rloopStart) (h1 : s.running = true) :
      Step s { s with rpc := .rtakeWait }
  /-- Line 135 fails: `RunLoop` returns. -/
  | rLoopDone (s : SysState) (h : s.rpc = .rloopStart)
      (h1 : s.running = false) :
      Step s { s with rpc := .rdone }
  /-- Lines 138-146: the wait predicate passes via `!running`; break. -/
  | rTakeStop (s : SysState) (h : s.rpc = .rtakeWait)
      (h1 : s.running = false) :
      Step s { s with rpc := .rdone }
  /-- Lines 138-141: predicate false, the render thread goes to sleep. -/
  | rTakeSleep (s : SysState) (h : s.rpc = .rtakeWait)
      (h1 : s.running = true) (h2 : s.updateAvailable = false) :
      Step s { s with rpc := .rtakeSleeping }
  /-- Lines 148-188: a cycle is available — consume it.  `cr` is the list
  of sensors `renderUtil.Update()` creates from its queue (empty when
  nothing is pending). -/
  | consume (s : SysState) (cr : List (Nat × SensorImpl))
      (h : s.rpc = .rtakeWait) (h1 : s.running = true)
      (h2 : s.updateAvailable = true)
      (h3 : s.pendingSensors = 0 → cr = []) :
      Step s (consumeEff cr s)

/-- States reachable from the post-`Configure` state. -/
def Reachable (s : SysState) : Prop :=
  Relation.ReflTransGen Step initState s

/-- A state from which no thread can take a step. -/
def Stuck (s : SysState) : Prop :=
  ∀ s', ¬ Step s s'

/-! ### The inductive invariant -/

/-- The inductive invariant of the protocol: the single-slot accounting
of the handoff (`updateAvailable` against the ghost counters),
init-before-cycle, and the lazy-initialization bookkeeping. -/
def Inv (s : SysState) : Prop :=
  (s.updateAvailable = true → s.initialized = true) ∧
  (s.submitCount = s.consumeCount + (if s.updateAvailable then 1 else 0)) ∧
  ((s.ppc = .pselect ∨ s.ppc = .psubmitGate ∨ s.ppc = .psubmitWait ∨
      s.ppc = .psubmitSleeping) → s.initialized = true) ∧
  ((s.rpc = .rinitLock ∨ s.rpc = .rinitSleeping ∨ s.rpc = .rinitWake) →
      s.initialized = false) ∧
  (s.initCount = if s.initialized then 1 else 0) ∧
  (s.doInit = true → s.everRenderComp = true) ∧
  (s.initialized = true → s.everRenderComp = true) ∧
  ((s.ppc = .pinitWait ∨ s.ppc = .pinitSleeping) → s.everRenderComp = true) ∧
  (s.pComp = true → s.everRenderComp = true)

/-! ### A concrete execution

Sensor 1 is a 0.1 Hz camera (10 s period, so a 9 s suppression window).
The run initializes, creates the sensor during the first (empty) cycle,
selects it at `t = 0`, and then runs the next `PostUpdate` at `t = 1`
before the render thread has consumed the `t = 0` cycle — so the mask
entry for sensor 1 is not yet written and the selection picks it again
well inside its suppression window. -/

/-- The 0.1 Hz rendering sensor used in the concrete execution. -/
def trA : SensorImpl := { rate := 1/10, renderingCapable := true, nextUpdate := some 0, sname := "cam" }

/-- `PostUpdate(0)` #1 begins; a camera component exists. -/
def tr1 : SysState := beginPUEff 0 true initState
/-- Line 221 true: head for the init request. -/
def tr2 : SysState := { tr1 with ppc := .pinitWait }
/-- Init request made (`doInit` set, notification lost: render thread not
yet waiting); falls through to line 237. -/
def tr3 : SysState := initReqEff tr2
/-- Line 237 false (`initialized` still false): `PostUpdate` #1 returns. -/
def tr4 : SysState := { tr3 with ppc := .pidle }
/-- The render thread passes the line-114 check. -/
def tr5 : SysState := { tr4 with rpc := .rinitLock }
/-- ... and blocks in the first-loop wait. -/
def tr6 : SysState := { tr5 with rpc := .rinitSleeping }
/-- `PostUpdate(0)` #2 begins, still uninitialized. -/
def tr7 : SysState := beginPUEff 0 true tr6
/-- Line 221 true again. -/
def tr8 : SysState := { tr7 with ppc := .pinitWait }
/-- Second init request; this notification wakes the render thread. -/
def tr9 : SysState := initReqEff tr8
/-- `PostUpdate` #2 returns, still uninitialized. -/
def tr10 : SysState := { tr9 with ppc := .pidle }
/-- The render thread runs lines 120-130: `renderUtil.Init()` runs,
`initialized` becomes true. -/
def tr11 : SysState := rInitWakeEff tr10
/-- Line 114 now false: leave the first loop. -/
def tr12 : SysState := { tr11 with rpc := .rloopStart }
/-- Enter the second loop and head for the predicated wait. -/
def tr13 : SysState := { tr12 with rpc := .rtakeWait }
/-- `PostUpdate(0)` #3 begins. -/
def tr14 : SysState := beginPUEff 0 true tr13
/-- Line 221 false (initialized). -/
def tr15 : SysState := { tr14 with ppc := .pmain }
/-- Line 237 true. -/
def tr16 : SysState := { tr15 with ppc := .pselect }
/-- Selection at `t = 0`: registry still empty, but `UpdateFromECM`
queued the camera (`PendingSensors` becomes 1). -/
def tr17 : SysState := selectEff 1 tr16
/-- Line 274 true via `PendingSensors() > 0`. -/
def tr18 : SysState := { tr17 with ppc := .psubmitWait }
/-- Install the (empty) cycle at `t = 0`. -/
def tr19 : SysState := installEff tr18
/-- The render thread consumes it; `renderUtil.Update()` creates
sensor 1. -/
def tr20 : SysState := consumeEff [(1, trA)] tr19
/-- Back around the second loop. -/
def tr21 : SysState := { tr20 with rpc := .rtakeWait }
/-- `PostUpdate(0)` #4 begins. -/
def tr22 : SysState := beginPUEff 0 true tr21
/-- Line 221 false. -/
def tr23 : SysState := { tr22 with ppc := .pmain }
/-- Line 237 true. -/
def tr24 : SysState := { tr23 with ppc := .pselect }
/-- Selection at `t = 0`: sensor 1 has no mask entry and is due. -/
def tr25 : SysState := selectEff 0 tr24
/-- Line 274 true via the non-empty selection. -/
def tr26 : SysState := { tr25 with ppc := .psubmitWait }
/-- Install the cycle `(0, [1])`. -/
def tr27 : SysState := installEff tr26
/-- `PostUpdate(1)` #5 begins before the render thread has consumed
the cycle. -/
def tr28 : SysState := beginPUEff 1 true tr27
/-- Line 221 false. -/
def tr29 : SysState := { tr28 with ppc := .pmain }
/-- Line 237 true. -/
def tr30 : SysState := { tr29 with ppc := .pselect }
/-- Selection at `t = 1`: the mask entry for sensor 1 has not been
written yet (the cycle is unconsumed), and its next-update time is still
0, so it is selected again 8 s before its suppression window ends. -/
def tr31 : SysState := selectEff 0 tr30
/-- Line 274 true. -/
def tr32 : SysState := { tr31 with ppc := .psubmitWait }
/-- A cycle is outstanding (`updateAvailable`), so the producer blocks. -/
def tr33 : SysState := { tr32 with ppc := .psubmitSleeping }
/-- The render thread consumes the `t = 0` cycle: only now is the mask
entry `0 + 0.9/(1/10) = 9` written and the producer woken. -/
def tr34 : SysState := consumeEff [] tr33
/-- The producer installs the second cycle `(1, [1])`. -/
def tr35 : SysState := installEff tr34

/-! ### The lost-wakeup execution of `Stop()`

No sensor is ever registered.  The render thread reads the line-114
condition (true: not initialized, running) but has not yet reached the
`renderCv.wait` of line 118 when `Stop()` runs to completion: `running`
becomes false and `notify_all` finds no waiter.  The render thread then
blocks in the un-predicated wait with nobody left to notify it, and
`Stop()` blocks forever in `join()`. -/

/-- The render thread has passed the line-114 check. -/
def dead1 : SysState := { initState with rpc := .rinitLock }
/-- `Stop()` runs: `running := false`, `notify_all` (lost — the render
thread is not waiting yet), then it blocks in `join()`. -/
def dead2 : SysState := stopEff dead1
/-- The render thread now blocks in the line-118 wait.  Nothing can ever
wake it, and `join` can never return: deadlock. -/
def deadState : SysState := { dead2 with rpc := .rinitSleeping }

/-! ### Concrete sensors used to instantiate the general theorems -/

/-- A 2 Hz rendering sensor next due at `t = 3`. -/
def wImplA : SensorImpl := { rate := 2, renderingCapable := true, nextUpdate := some 3, sname := "w" }

/-- A rate-0 (disabled) rendering sensor: never due. -/
def wImplZ : SensorImpl := { rate := 0, renderingCapable := true, nextUpdate := none, sname := "z" }

/-- A manager with `wImplA` at id 5 and `wImplZ` at id 9. -/
def wSensors : Nat → Option SensorImpl :=
  fun j => if j = 5 then some wImplA else if j = 9 then some wImplZ else none

/-- The empty update mask. -/
def wMaskNone : Nat → Option ℚ := fun _ => none

theorem wakeR_initset (pc : RenderPC) :
    (wakeR pc = .rinitLock ∨ wakeR pc = .rinitSleeping ∨ wakeR pc = .rinitWake) ↔
    (pc = .rinitLock ∨ pc = .rinitSleeping ∨ pc = .rinitWake) := by
  cases pc <;> simp [wakeR]

theorem wakeP_subset (pc : ProdPC) :
    (wakeP pc = .pselect ∨ wakeP pc = .psubmitGate ∨ wakeP pc = .psubmitWait ∨
      wakeP pc = .psubmitSleeping) ↔
    (pc = .pselect ∨ pc = .psubmitGate ∨ pc = .psubmitWait ∨
      pc = .psubmitSleeping) := by
  cases pc <;> simp [wakeP]

theorem wakeP_initset (pc : ProdPC) :
    (wakeP pc = .pinitWait ∨ wakeP pc = .pinitSleeping) ↔
    (pc = .pinitWait ∨ pc = .pinitSleeping) := by
  cases pc <;> simp [wakeP]

theorem inv_initState : Inv initState := by
  simp [Inv, initState]

theorem inv_step {s s' : SysState} (hs : Inv s) (st : Step s s') : Inv s' := by
  obtain ⟨i1, i2, i3, i4, i5, i6, i7, i8, i9⟩ := hs
  cases st <;>
    simp_all [Inv, beginPUEff, initReqEff, selectEff, installEff, stopEff,
      rInitWakeEff, consumeEff, wakeR_initset, wakeP_subset, wakeP_initset]

theorem reachable_inv {s : SysState} (h : Reachable s) : Inv s := by
  induction h with
  | refl => exact inv_initState
  | tail _ st ih => exact inv_step ih st

/-! ### Reachability of the concrete executions -/

theorem reach_tr4 : Reachable tr4 := by
  have h0 : Reachable initState := Relation.ReflTransGen.refl
  have h1 := h0.tail (Step.beginPU initState 0 true rfl)
  have h2 := h1.tail (Step.postStartInit tr1 rfl rfl rfl)
  have h3 := h2.tail (Step.initReq tr2 rfl (Or.inr rfl))
  exact h3.tail (Step.mainSkip tr3 rfl (Or.inr rfl))

theorem reach_tr7 : Reachable tr7 := by
  have h5 := reach_tr4.tail (Step.rStartInit tr4 rfl rfl rfl)
  have h6 := h5.tail (Step.rInitSleep tr5 rfl)
  exact h6.tail (Step.beginPU tr6 0 true rfl)

theorem reach_tr11 : Reachable tr11 := by
  have h8 := reach_tr7.tail (Step.postStartInit tr7 rfl rfl rfl)
  have h9 := h8.tail (Step.initReq tr8 rfl (Or.inr rfl))
  have h10 := h9.tail (Step.mainSkip tr9 rfl (Or.inr rfl))
  exact h10.tail (Step.rInitWake tr10 rfl)

theorem reach_tr16 : Reachable tr16 := by
  have h12 := reach_tr11.tail (Step.rStartSkip tr11 rfl (Or.inl rfl))
  have h13 := h12.tail (Step.rLoopGo tr12 rfl rfl)
  have h14 := h13.tail (Step.beginPU tr13 0 true rfl)
  have h15 := h14.tail (Step.postStartSkip tr14 rfl (Or.inl rfl))
  exact h15.tail (Step.mainGo tr15 rfl rfl rfl)

theorem reach_tr20 : Reachable tr20 := by
  have h17 := reach_tr16.tail (Step.selectStep tr16 1 rfl)
  have h18 := h17.tail (Step.gateGo tr17 rfl (Or.inr (by decide)))
  have h19 := h18.tail (Step.install tr18 rfl rfl rfl)
  exact h19.tail (Step.consume tr19 [(1, trA)] rfl rfl rfl (by decide))

theorem reach_tr27 : Reachable tr27 := by
  have h21 := reach_tr20.tail (Step.rLoopGo tr20 rfl rfl)
  have h22 := h21.tail (Step.beginPU tr21 0 true rfl)
  have h23 := h22.tail (Step.postStartSkip tr22 rfl (Or.inl rfl))
  have h24 := h23.tail (Step.mainGo tr23 rfl rfl rfl)
  have h25 := h24.tail (Step.selectStep tr24 0 rfl)
  have h26 := h25.tail (Step.gateGo tr25 rfl (Or.inl (by decide)))
  exact h26.tail (Step.install tr26 rfl rfl rfl)

theorem reach_tr33 : Reachable tr33 := by
  have h28 := reach_tr27.tail (Step.beginPU tr27 1 true rfl)
  have h29 := h28.tail (Step.postStartSkip tr28 rfl (Or.inl rfl))
  have h30 := h29.tail (Step.mainGo tr29 rfl rfl rfl)
  have h31 := h30.tail (Step.selectStep tr30 0 rfl)
  have h32 := h31.tail (Step.gateGo tr31 rfl (Or.inl (by decide)))
  exact h32.tail (Step.submitSleep tr32 rfl rfl rfl)

theorem reach_tr35 : Reachable tr35 := by
  have h34 := reach_tr33.tail (Step.consume tr33 [] rfl rfl rfl (fun _ => rfl))
  exact h34.tail (Step.install tr34 rfl rfl rfl)

theorem reach_deadState : Reachable deadState := by
  have h0 : Reachable initState := Relation.ReflTransGen.refl
  have h1 := h0.tail (Step.rStartInit initState rfl rfl rfl)
  have h2 := h1.tail (Step.stop dead1 rfl)
  exact h2.tail (Step.rInitSleep dead2 rfl)

theorem deadState_stuck : Stuck deadState := by
  intro s' h
  cases h <;> simp_all [deadState, dead2, dead1, stopEff, wakeR, initState]

/-! ### Facts about the selection loop -/

theorem processId_fst_ne {sensors : Nat → Option SensorImpl} {t : ℚ}
    {st : (Nat → Option ℚ) × List Nat} {j id : Nat} (h : j ≠ id) :
    (processId sensors t st j).1 id = st.1 id := by
  have h' : id ≠ j := Ne.symm h
  unfold processId
  cases hm : st.1 j with
  | none => simp [hm]
  | some u =>
    simp only [hm]
    split
    · simp [h']
    · rfl

theorem processId_mem_ne {sensors : Nat → Option SensorImpl} {t : ℚ}
    {st : (Nat → Option ℚ) × List Nat} {j id : Nat} (h : j ≠ id) :
    (id ∈ (processId sensors t st j).2 ↔ id ∈ st.2) := by
  have h' : id ≠ j := Ne.symm h
  unfold processId
  cases hm : st.1 j with
  | none =>
    simp only [hm]
    split <;> simp [h']
  | some u =>
    simp only [hm]
    split
    · split <;> simp [h']
    · rfl

theorem foldl_processId_notMem {sensors : Nat → Option SensorImpl} {t : ℚ}
    {id : Nat} :
    ∀ (l : List Nat) (st : (Nat → Option ℚ) × List Nat), id ∉ l →
      ((l.foldl (processId sensors t) st).1 id = st.1 id ∧
       (id ∈ (l.foldl (processId sensors t) st).2 ↔ id ∈ st.2)) := by
  intro l
  induction l with
  | nil => intro st _; exact ⟨rfl, Iff.rfl⟩
  | cons a l ih =>
    intro st hmem
    have ha : a ≠ id := fun hh => hmem (hh ▸ List.mem_cons_self a l)
    have hl : id ∉ l := fun hh => hmem (List.mem_cons_of_mem a hh)
    have := ih (processId sensors t st a) hl
    exact ⟨this.1.trans (processId_fst_ne ha),
           this.2.trans (processId_mem_ne ha)⟩

theorem foldl_processId_notDue {sensors : Nat → Option SensorImpl} {t : ℚ}
    {id : Nat} (hdue : dueAt (renderingHandle sensors id) t = false) :
    ∀ (l : List Nat) (st : (Nat → Option ℚ) × List Nat), id ∉ st.2 →
      id ∉ (l.foldl (processId sensors t) st).2 := by
  intro l
  induction l with
  | nil => intro st h; exact h
  | cons a l ih =>
    intro st hmem
    refine ih (processId sensors t st a) ?_
    by_cases ha : a = id
    · subst ha
      unfold processId
      cases hm : st.1 a with
      | none => simp [hm, hdue, hmem]
      | some u =>
        simp only [hm]
        split
        · simp [hdue, hmem]
        · exact hmem
    · exact fun hh => hmem ((processId_mem_ne ha).mp hh)

theorem maskWrites_notMem {sensors : Nat → Option SensorImpl} {ut : ℚ}
    {id : Nat} :
    ∀ (act : List Nat) (mask : Nat → Option ℚ), id ∉ act →
      maskWrites sensors ut act mask id = mask id := by
  intro act
  induction act with
  | nil => intro mask _; rfl
  | cons a act ih =>
    intro mask hmem
    have ha : a ≠ id := fun hh => hmem (hh ▸ List.mem_cons_self a act)
    have hl : id ∉ act := fun hh => hmem (List.mem_cons_of_mem a hh)
    unfold maskWrites
    simp only [List.foldl_cons]
    rw [show (List.foldl _ _ act = maskWrites sensors ut act _) from rfl, ih _ hl]
    have ha' : id ≠ a := Ne.symm ha
    cases hs : sensors a with
    | none => rfl
    | some impl => simp [ha']

theorem maskWrites_mem {sensors : Nat → Option SensorImpl} {ut : ℚ}
    {id : Nat} {impl : SensorImpl} (hs : sensors id = some impl) :
    ∀ (act : List Nat) (mask : Nat → Option ℚ), id ∈ act →
      maskWrites sensors ut act mask id = some (ut + 9/10 / impl.rate) := by
  intro act
  induction act with
  | nil => intro mask h; exact absurd h (List.not_mem_nil id)
  | cons a act ih =>
    intro mask hmem
    by_cases hrest : id ∈ act
    · exact ih _ hrest
    · have ha : a = id := by
        rcases List.mem_cons.mp hmem with h | h
        · exact h.symm
        · exact absurd h hrest
      subst ha
      unfold maskWrites
      simp only [List.foldl_cons]
      rw [show (List.foldl _ _ act = maskWrites sensors ut act _) from rfl,
          maskWrites_notMem act _ hrest]
      simp [hs]

theorem nodup_split {l1 l2 : List Nat} {id : Nat}
    (h : (l1 ++ id :: l2).Nodup) : id ∉ l1 ∧ id ∉ l2 := by
  simp only [List.nodup_append, List.nodup_cons] at h
  exact ⟨fun hh => h.2.2 hh (List.mem_cons_self id l2), h.2.1.1⟩

theorem processId_masked_skip {sensors : Nat → Option SensorImpl} {t u : ℚ}
    {st : (Nat → Option ℚ) × List Nat} {id : Nat}
    (h1 : st.1 id = some u) (hfut : ¬ u ≤ t) :
    processId sensors t st id = (st.1, st.2) := by
  simp only [processId, h1, if_neg hfut]

theorem processId_expired {sensors : Nat → Option SensorImpl} {t u : ℚ}
    {st : (Nat → Option ℚ) × List Nat} {id : Nat}
    (h1 : st.1 id = some u) (hle : u ≤ t) :
    processId sensors t st id =
      (fun j => if j = id then none else st.1 j,
       if dueAt (renderingHandle sensors id) t then st.2 ++ [id] else st.2) := by
  simp only [processId, h1, if_pos hle]

theorem processId_nomask {sensors : Nat → Option SensorImpl} {t : ℚ}
    {st : (Nat → Option ℚ) × List Nat} {id : Nat} (h1 : st.1 id = none) :
    processId sensors t st id =
      (st.1, if dueAt (renderingHandle sensors id) t then st.2 ++ [id] else st.2) := by
  simp only [processId, h1]

theorem foldl_processId_masked {sensors : Nat → Option SensorImpl} {t u : ℚ}
    {id : Nat} (hfut : ¬ u ≤ t) :
    ∀ (l : List Nat) (st : (Nat → Option ℚ) × List Nat),
      st.1 id = some u → id ∉ st.2 →
      ((l.foldl (processId sensors t) st).1 id = some u ∧
       id ∉ (l.foldl (processId sensors t) st).2) := by
  intro l
  induction l with
  | nil => intro st h1 h2; exact ⟨h1, h2⟩
  | cons a l ih =>
    intro st h1 h2
    refine ih (processId sensors t st a) ?_ ?_
    · by_cases ha : a = id
      · subst ha
        rw [processId_masked_skip h1 hfut]
        exact h1
      · exact (processId_fst_ne ha).trans h1
    · by_cases ha : a = id
      · subst ha
        rw [processId_masked_skip h1 hfut]
        exact h2
      · exact fun hh => h2 ((processId_mem_ne ha).mp hh)

/-- Any selection run against a mask whose entry for `id` is still in the
future skips `id` and leaves the entry in place. -/
theorem select_masked_future {sensors : Nat → Option SensorImpl}
    {mask : Nat → Option ℚ} {t u : ℚ} {id : Nat} (ids : List Nat)
    (hm : mask id = some u) (hfut : t < u) :
    (select ids sensors mask t).1 id = some u ∧
    id ∉ (select ids sensors mask t).2 := by
  have := @foldl_processId_masked sensors t u id (not_le.mpr hfut) ids
    (mask, []) hm (by simp)
  exact this

/-! ### The claims -/

/-- Claim C1 — Single-flight handoff: in every reachable state the number
of installed cycles exceeds the number of consumed cycles exactly by the
one outstanding `updateAvailable` slot (depth ≤ 1, nothing dropped or
queued deeper); a step can install a new cycle only from a state where
the previous one has been consumed (`updateAvailable = false`); and while
a cycle is outstanding the producer sitting at the submission wait cannot
install or return — its only move is to block. -/
theorem sensors_single_flight (s : SysState) (hr : Reachable s) :
    s.submitCount = s.consumeCount + (if s.updateAvailable then 1 else 0) ∧
    (∀ s', Step s s' → s'.submitCount = s.submitCount + 1 →
        s.updateAvailable = false ∧ s'.updateAvailable = true) ∧
    (∀ s', Step s s' → s.ppc = .psubmitWait → s.updateAvailable = true →
        s.running = true → s'.submitCount = s.submitCount ∧ s'.ppc ≠ .pidle) := by
  refine ⟨(reachable_inv hr).2.1, ?_, ?_⟩
  · intro s' st hinc
    cases st <;>
      simp_all [beginPUEff, initReqEff, selectEff, installEff, stopEff,
        rInitWakeEff, consumeEff]
  · intro s' st hppc hua hrun
    cases st <;>
      simp_all [beginPUEff, initReqEff, selectEff, installEff, stopEff,
        rInitWakeEff, consumeEff, wakeP]

theorem sensors_single_flight_witness :
    tr27.submitCount = tr27.consumeCount + (if tr27.updateAvailable then 1 else 0) :=
  (sensors_single_flight tr27 reach_tr27).1

/-- Claim C2 — Stop correctness fails on the code: with no sensor ever
registered, the render thread can pass the `!initialized && running`
check of line 114 just before `Stop()` runs; `Stop()`'s `notify_all` then
finds no waiter and is lost, the render thread blocks forever in the
un-predicated `renderCv.wait(lock)` of line 118, and `Stop()` blocks
forever in `join()`: a reachable deadlock, contradicting the claim that
every blocked wait re-checks the stop flag and `Stop()` always returns. -/
theorem stop_lost_wakeup_deadlock :
    Reachable deadState ∧ Stuck deadState ∧
    deadState.running = false ∧ deadState.ppc = .pstopJoin ∧
    deadState.rpc = .rinitSleeping ∧ deadState.sensorIds = [] ∧
    deadState.initialized = false :=
  ⟨reach_deadState, deadState_stuck, rfl, rfl, rfl, rfl, rfl⟩

/-- Claim C3, counterexample: the `PostUpdate` that issues the init
request (sets `doInit`, state `tr4`) returns to its caller
(`ppc = pidle`) while `initialized` is still false, and a second
`PostUpdate` step then begins (state `tr7`, `postUpdateCount = 2`) still
uninitialized — so the init request does not block until the render
worker has completed initialization. -/
theorem initreq_returns_before_init :
    Reachable tr4 ∧ tr4.ppc = .pidle ∧ tr4.doInit = true ∧
    tr4.initialized = false ∧ tr4.postUpdateCount = 1 ∧
    Reachable tr7 ∧ tr7.postUpdateCount = 2 ∧ tr7.initialized = false :=
  ⟨reach_tr4, rfl, rfl, rfl, rfl, reach_tr7, rfl, rfl⟩

/-- Claim C3, amended: the init request returns without waiting for the
render worker, and the producer may begin further steps while the scene
does not yet exist; but the producer never reaches the selection or
submission phase — and never has a cycle installed — while
`initialized` is false. -/
theorem initreq_no_premature_submit (s : SysState) (hr : Reachable s) :
    ((s.ppc = .pselect ∨ s.ppc = .psubmitGate ∨ s.ppc = .psubmitWait ∨
        s.ppc = .psubmitSleeping) → s.initialized = true) ∧
    (s.updateAvailable = true → s.initialized = true) :=
  ⟨(reachable_inv hr).2.2.1, (reachable_inv hr).1⟩

theorem initreq_no_premature_submit_witness : tr16.initialized = true :=
  (initreq_no_premature_submit tr16 reach_tr16).1 (Or.inl rfl)

/-- Claim C4 — Frame Selector algorithm: for a sensor id of the registry
whose handle is a rendering sensor with next-update time `nu`: a mask
entry strictly in the future of `t` skips the sensor and keeps the
entry; an expired mask entry (`u ≤ t`) is removed and the sensor is then
included exactly when `nu ≤ t`; with no mask entry the sensor is
included exactly when `nu ≤ t`. -/
theorem frame_selector_cases
    (ids : List Nat) (sensors : Nat → Option SensorImpl)
    (mask : Nat → Option ℚ) (t : ℚ) (id : Nat) (impl : SensorImpl) (nu : ℚ)
    (hnd : ids.Nodup) (hmem : id ∈ ids) (hs : sensors id = some impl)
    (hcap : impl.renderingCapable = true) (hnu : impl.nextUpdate = some nu) :
    (∀ u, mask id = some u → t < u →
      id ∉ (select ids sensors mask t).2 ∧
      (select ids sensors mask t).1 id = some u) ∧
    (∀ u, mask id = some u → u ≤ t →
      (select ids sensors mask t).1 id = none ∧
      (id ∈ (select ids sensors mask t).2 ↔ nu ≤ t)) ∧
    (mask id = none → (id ∈ (select ids sensors mask t).2 ↔ nu ≤ t)) := by
  obtain ⟨l1, l2, hids⟩ := List.append_of_mem hmem
  subst hids
  obtain ⟨hn1, hn2⟩ := nodup_split hnd
  have hdue : dueAt (renderingHandle sensors id) t = decide (nu ≤ t) := by
    simp [renderingHandle, dueAt, hs, hcap, hnu]
  have hsel : select (l1 ++ id :: l2) sensors mask t =
      l2.foldl (processId sensors t)
        (processId sensors t (l1.foldl (processId sensors t) (mask, [])) id) := by
    simp [select, List.foldl_append]
  have hpre := @foldl_processId_notMem sensors t id l1 (mask, []) hn1
  have hm1 : (l1.foldl (processId sensors t) (mask, [])).1 id = mask id := hpre.1
  have hmem1 : id ∉ (l1.foldl (processId sensors t) (mask, [])).2 := by
    intro hh
    exact absurd (hpre.2.mp hh) (List.not_mem_nil id)
  set st1 := l1.foldl (processId sensors t) (mask, []) with hst1
  refine ⟨?_, ?_, ?_⟩
  · intro u hu hlt
    have hst2 : processId sensors t st1 id = (st1.1, st1.2) :=
      processId_masked_skip (hm1.trans hu) (not_le.mpr hlt)
    rw [hsel, hst2]
    have := @foldl_processId_masked sensors t u id (not_le.mpr hlt) l2
      (st1.1, st1.2) (hm1.trans hu) hmem1
    exact ⟨this.2, this.1⟩
  · intro u hu hle
    have hst2 : processId sensors t st1 id =
        (fun j => if j = id then none else st1.1 j,
         if dueAt (renderingHandle sensors id) t then st1.2 ++ [id] else st1.2) :=
      processId_expired (hm1.trans hu) hle
    rw [hsel, hst2]
    have hpost := @foldl_processId_notMem sensors t id l2
      (fun j => if j = id then none else st1.1 j,
       if dueAt (renderingHandle sensors id) t then st1.2 ++ [id] else st1.2) hn2
    refine ⟨hpost.1.trans (by simp), hpost.2.trans ?_⟩
    rw [hdue]
    by_cases hd : nu ≤ t
    · simp [hd]
    · simp [hd, hmem1]
  · intro hu
    have hst2 : processId sensors t st1 id =
        (st1.1,
         if dueAt (renderingHandle sensors id) t then st1.2 ++ [id] else st1.2) :=
      processId_nomask (hm1.trans hu)
    rw [hsel, hst2]
    have hpost := @foldl_processId_notMem sensors t id l2
      (st1.1,
       if dueAt (renderingHandle sensors id) t then st1.2 ++ [id] else st1.2) hn2
    refine hpost.2.trans ?_
    rw [hdue]
    by_cases hd : nu ≤ t
    · simp [hd]
    · simp [hd, hmem1]

theorem frame_selector_cases_witness :
    5 ∈ (select [5] wSensors wMaskNone 4).2 ↔ (3:ℚ) ≤ 4 :=
  (frame_selector_cases [5] wSensors wMaskNone 4 5 wImplA 3 (by simp) (by simp)
    rfl rfl rfl).2.2 rfl

/-- Claim C5, counterexample: sensor 1 (rate 1/10 Hz, suppression window
`0.9/r = 9`) is installed in the cycle at `t = 0` and again in the cycle
at `t = 1 ∈ [0, 9)`: the selection of the second `PostUpdate` runs before
the render thread has consumed the first cycle, so the mask entry is not
yet written and the suppression window is not honoured. -/
theorem mask_window_reselection :
    Reachable tr35 ∧
    tr35.submitted = [(1, [1]), (0, [1]), (0, [])] ∧
    trA.rate = 1/10 ∧
    ((1:ℚ) < 0 + 9/10 * (1 / trA.rate)) := by
  refine ⟨reach_tr35, by decide, rfl, by norm_num [trA]⟩

/-- Claim C5, amended: the mask entry written by the render thread for
every sensor of the consumed cycle is exactly
`updateTime + 0.9 × (1/rate)`, and any selection that runs against a
mask carrying this entry, at a simulation time before the entry expires,
does not select the sensor.  (A selection racing ahead of the cycle's
consumption sees no entry and may still select it, as the counterexample
shows.) -/
theorem mask_value_and_suppression
    (sensors : Nat → Option SensorImpl) (ut t : ℚ) (act ids : List Nat)
    (mask mask2 : Nat → Option ℚ) (id : Nat) (impl : SensorImpl)
    (hmem : id ∈ act) (hs : sensors id = some impl)
    (hmask2 : mask2 id = maskWrites sensors ut act mask id)
    (hwin : t < ut + 9/10 * (1 / impl.rate)) :
    maskWrites sensors ut act mask id = some (ut + 9/10 * (1 / impl.rate)) ∧
    id ∉ (select ids sensors mask2 t).2 := by
  have heq : ut + 9/10 / impl.rate = ut + 9/10 * (1 / impl.rate) := by
    ring
  have hw : maskWrites sensors ut act mask id = some (ut + 9/10 * (1 / impl.rate)) := by
    rw [maskWrites_mem hs act mask hmem, heq]
  exact ⟨hw, (select_masked_future ids (hmask2.trans hw) hwin).2⟩

theorem mask_value_and_suppression_witness :
    maskWrites wSensors 0 [5] wMaskNone 5 = some (0 + 9/10 * (1 / wImplA.rate)) ∧
    5 ∉ (select [5] wSensors (maskWrites wSensors 0 [5] wMaskNone) (1/4)).2 :=
  mask_value_and_suppression wSensors 0 (1/4) [5] [5] wMaskNone
    (maskWrites wSensors 0 [5] wMaskNone) 5 wImplA (by simp) rfl rfl
    (by norm_num [wImplA])

/-- Claim C6 — Rate-zero safety: a well-formed sensor handle with update
rate 0 is never due, so the selection loop never includes it in any
cycle for any registry, mask and time; the mask-writing loop (the only
place dividing by the update rate) never touches the entry of a sensor
that is not in the consumed cycle; and `RunOnce` keeps a rate-0 sensor
without a due time. -/
theorem rate_zero_never_due
    (impl : SensorImpl) (hwf : impl.wf) (hrate : impl.rate = 0)
    (sensors : Nat → Option SensorImpl) (id : Nat)
    (hs : sensors id = some impl) :
    (∀ ids mask t, id ∉ (select ids sensors mask t).2) ∧
    (∀ (sensors2 : Nat → Option SensorImpl) (ut : ℚ) act mask, id ∉ act →
      maskWrites sensors2 ut act mask id = mask id) ∧
    (∀ ut act impl', runOnce ut act sensors id = some impl' →
      impl'.nextUpdate = none) := by
  have hnu : impl.nextUpdate = none := hwf hrate
  have hdue : ∀ t, dueAt (renderingHandle sensors id) t = false := by
    intro t
    unfold renderingHandle dueAt
    rw [hs]
    cases hc : impl.renderingCapable <;> simp [hc, hnu]
  refine ⟨?_, ?_, ?_⟩
  · intro ids mask t
    exact foldl_processId_notDue (hdue t) ids (mask, []) (by simp)
  · intro sensors2 ut act mask hnm
    exact maskWrites_notMem act mask hnm
  · intro ut act impl' hro
    unfold runOnce at hro
    rw [hs] at hro
    by_cases hin : id ∈ act
    · simp only [if_pos hin, Option.some.injEq] at hro
      rw [← hro]
      simp [hrate]
    · simp only [if_neg hin, Option.some.injEq] at hro
      rw [← hro]
      exact hnu

theorem rate_zero_never_due_witness :
    9 ∉ (select [5, 9] wSensors wMaskNone 100).2 :=
  (rate_zero_never_due wImplZ (fun _ => rfl) rfl wSensors 9 rfl).1
    [5, 9] wMaskNone 100

/-- Claim C7: a descriptor of type `NONE` makes `CreateSensor` log and
return the empty result with no other effect — but when the manager
fails (null handle for the returned id), the code only logs "Failed to
create sensor" and then falls through to
`renderingSensor->SetScene(...)` on the null `dynamic_cast` result: a
null-pointer dereference, not the claimed failure-indicator return.  The
id has moreover already been inserted into the registry. -/
theorem create_sensor_null_deref :
    createSensor .noneType 7 (some wImplA) [3] =
      ⟨.emptyName, [3], true⟩ ∧
    createSensor .camera 5 none [] = ⟨.nullDeref, [5], true⟩ := by
  constructor <;> rfl

/-- Claim C8 — Lazy one-time initialization: in every reachable state the
render context has been constructed at most once, and it has been
constructed only if some `PostUpdate` observed a rendering-capable
sensor component; hence on a run where none ever exists it is never
constructed. -/
theorem lazy_init_once (s : SysState) (hr : Reachable s) :
    s.initCount ≤ 1 ∧ (1 ≤ s.initCount → s.everRenderComp = true) := by
  obtain ⟨i1, i2, i3, i4, i5, i6, i7, i8, i9⟩ := reachable_inv hr
  by_cases h : s.initialized = true
  · rw [if_pos h] at i5
    exact ⟨le_of_eq i5, fun _ => i7 h⟩
  · rw [if_neg h] at i5
    refine ⟨by omega, fun hc => absurd (i5 ▸ hc) (by omega)⟩

theorem lazy_init_once_witness :
    tr11.initCount ≤ 1 ∧ (1 ≤ tr11.initCount → tr11.everRenderComp = true) :=
  lazy_init_once tr11 reach_tr11

/-- Claim C9 — Init-before-cycle: in every reachable state an installed
cycle implies initialization has completed; no step consumes a cycle
from an uninitialized state; and no step installs a cycle from an
uninitialized state. -/
theorem init_before_cycle (s : SysState) (hr : Reachable s) :
    (s.updateAvailable = true → s.initialized = true) ∧
    (∀ s', Step s s' → s'.consumeCount = s.consumeCount + 1 →
        s.initialized = true) ∧
    (∀ s', Step s s' → s'.submitCount = s.submitCount + 1 →
        s.initialized = true) := by
  obtain ⟨i1, i2, i3, i4, i5, i6, i7, i8, i9⟩ := reachable_inv hr
  refine ⟨i1, ?_, ?_⟩
  · intro s' st hinc
    cases st <;> simp_all [beginPUEff, initReqEff, selectEff, installEff,
      stopEff, rInitWakeEff, consumeEff]
  · intro s' st hinc
    cases st <;> simp_all [beginPUEff, initReqEff, selectEff, installEff,
      stopEff, rInitWakeEff, consumeEff]

theorem init_before_cycle_witness : tr33.initialized = true :=
  (init_before_cycle tr33 reach_tr33).2.1 (consumeEff [] tr33)
    (Step.consume tr33 [] rfl rfl rfl (fun _ => rfl)) rfl

/-- Claim C10 — Selector tolerates invalid registry entries:
`CreateSensor` records the manager's id in the registry before (and
regardless of) validating the handle, so the registry can hold ids whose
handle is null or not rendering-capable; and the per-step selection loop
never includes such an id in a cycle (the inclusion test requires a
non-null rendering-capable handle), so it never dereferences an invalid
handle. -/
theorem invalid_registry_entries_safe
    (ty : SdfType) (mgrId : Nat) (handle : Option SensorImpl)
    (ids regIds : List Nat) (sensors : Nat → Option SensorImpl)
    (mask : Nat → Option ℚ) (t : ℚ) (id : Nat)
    (hty : ty ≠ .noneType) (hbad : renderingHandle sensors id = none) :
    mgrId ∈ (createSensor ty mgrId handle ids).sensorIds ∧
    id ∉ (select regIds sensors mask t).2 := by
  constructor
  · have hmem : mgrId ∈ (if mgrId ∈ ids then ids else ids ++ [mgrId]) := by
      split
      · assumption
      · simp
    unfold createSensor
    rw [if_neg hty]
    cases handle with
    | none => exact hmem
    | some impl =>
      by_cases hc : impl.renderingCapable = true <;> simp [hc, hmem]
  · have hdue : dueAt (renderingHandle sensors id) t = false := by
      rw [hbad]
      rfl
    exact foldl_processId_notDue hdue regIds (mask, []) (by simp)

theorem invalid_registry_entries_safe_witness :
    7 ∈ (createSensor .camera 7 none [5]).sensorIds ∧
    7 ∉ (select [5, 7] wSensors wMaskNone 3).2 :=
  invalid_registry_entries_safe .camera 7 none [5] [5, 7] wSensors
    wMaskNone 3 7 (by decide) rfl

end SensorsSys
